import Mathlib

/-!
Verification of the django-react backend API (src/backend/api/views.py and
src/backend/api/urls.py): a single route `welcome-message/` served by the
handler `welcome_message`, which returns the fixed JSON payload
`{"message": "Hello World!"}` with HTTP status 200.

The two source files contain only the handler and the URL pattern table; the
surrounding framework machinery (URL resolution, the `api_view` method check,
default statuses and the JSON renderer) is modelled from the spec where noted.
-/

namespace DjangoReact

/-- A JSON value, restricted to the forms the payload uses: strings and
objects (ordered key/value lists). -/
inductive Json where
  | str : String → Json
  | obj : List (String × Json) → Json

mutual

/-- Serialize a JSON value to its byte representation (as a `String`),
mirroring how the framework's JSON renderer emits the response body. -/
def Json.render : Json → String
  | .str s => "\"" ++ s ++ "\""
  | .obj fields => "\x7b" ++ Json.renderFields fields ++ "\x7d"

/-- Serialize the field list of a JSON object, comma-separated. -/
def Json.renderFields : List (String × Json) → String
  | [] => ""
  | [f] => "\"" ++ f.1 ++ "\": " ++ Json.render f.2
  | f :: g :: rest => "\"" ++ f.1 ++ "\": " ++ Json.render f.2 ++ ", " ++ Json.renderFields (g :: rest)

end

/-- An incoming HTTP request: method, path (without the leading slash, as
Django's resolver sees it), query parameters, headers and body. -/
structure HttpRequest where
  method : String
  path : String
  query : List (String × String)
  headers : List (String × String)
  body : String
  deriving DecidableEq, Repr

/-- An HTTP response: status code, content type, and the body as a JSON
value (the renderer's input; `Json.render` gives the bytes). -/
structure HttpResponse where
  status : Nat
  contentType : String
  body : Json

/-- The payload built by the handler's dictionary literal
(views.py line 8): a single key `message` mapped to `Hello World!`. -/
def welcomeJson : Json := Json.obj [("message", Json.str "Hello World!")]

/-- The handler `welcome_message` (views.py lines 6-8): its body is the
single statement `return Response({"message": "Hello World!"})`, which
cannot raise, so it always returns `Except.ok`. The request argument is
never inspected. Status 200 and the JSON content type are the framework
defaults for `Response`, which the spec states explicitly ("HTTP response
with status 200, JSON content type"). -/
def welcome_message (_req : HttpRequest) : Except String HttpResponse :=
  .ok { status := 200, contentType := "application/json", body := welcomeJson }

/-- A URL pattern, as built by `path(route, view, name=...)` in urls.py. -/
structure UrlPattern where
  route : String
  view : HttpRequest → Except String HttpResponse
  name : String

/-- The URL table of urls.py lines 4-6: the single entry
`path("welcome-message/", views.welcome_message, name="welcome-message")`. -/
def urlpatterns : List UrlPattern :=
  [{ route := "welcome-message/", view := welcome_message, name := "welcome-message" }]

/-- Modelled from the spec: Django's URL resolution, which is not under
src/. The resolver scans the pattern table in order and returns the first
pattern whose route matches the request path exactly (trailing slash
significant, per spec section 2). -/
def resolve (patterns : List UrlPattern) (p : String) : Option UrlPattern :=
  patterns.find? (fun pat => pat.route == p)

/-- The method list passed to the decorator `api_view(["GET"])`
(views.py line 5). -/
def allowed_methods : List String := ["GET"]

/-- Result of dispatching one request: the response produced, and whether
the registered view function was invoked to produce it. -/
structure DispatchResult where
  response : HttpResponse
  handlerInvoked : Bool

/-- Modelled from the spec: the framework-default error body ("framework
default error body"; the spec fixes only the status and content type of
error responses). -/
def frameworkErrorBody (detail : String) : Json :=
  Json.obj [("detail", Json.str detail)]

/-- Modelled from the spec: the framework dispatch pipeline, which is not
under src/. Per spec section 4.1: a request whose path matches no pattern
gets the framework-default 404 response and no handler runs; a request that
matches the pattern but whose method is not in the `api_view` list gets the
framework-default 405 response and the handler does not run; otherwise the
view is invoked and its response returned (an error escaping a view would
become a framework 500, a branch the handler never takes). -/
def dispatch (req : HttpRequest) : DispatchResult :=
  match resolve urlpatterns req.path with
  | none =>
    { response := { status := 404, contentType := "application/json",
                    body := frameworkErrorBody "Not found." },
      handlerInvoked := false }
  | some pat =>
    if allowed_methods.contains req.method then
      match pat.view req with
      | .ok resp => { response := resp, handlerInvoked := true }
      | .error _ =>
        { response := { status := 500, contentType := "application/json",
                        body := frameworkErrorBody "Server error." },
          handlerInvoked := true }
    else
      { response := { status := 405, contentType := "application/json",
                      body := frameworkErrorBody "Method not allowed." },
        handlerInvoked := false }

/-- The rendered body bytes of a handler result, when it produced one. -/
def handlerBodyBytes : Except String HttpResponse → Option String
  | .ok resp => some (Json.render resp.body)
  | .error _ => none

/-- Mutable program state surrounding the handler: a log, a key/value
store, and a record of external calls. -/
structure ServerState where
  log : List String
  store : List (String × String)
  externalCalls : List String
  deriving DecidableEq, Repr

/-- Running the handler against program state. The body of
`welcome_message` (views.py lines 6-8) is a single return statement: it
reads no state, writes none, logs nothing and calls nothing external, so
the state threads through untouched and the result is the pure handler's. -/
def welcome_message_run (s : ServerState) (req : HttpRequest) :
    ServerState × Except String HttpResponse :=
  (s, welcome_message req)

/-! ### Helper lemmas and concrete requests -/

/-- Resolution over the concrete one-entry pattern table. -/
theorem resolve_urlpatterns (p : String) :
    resolve urlpatterns p =
      if ("welcome-message/" == p) then
        some { route := "welcome-message/", view := welcome_message, name := "welcome-message" }
      else none := by
  cases h : ("welcome-message/" == p) <;> simp [resolve, urlpatterns, List.find?, h]

/-- A plain `GET /welcome-message/` request with no query, headers or body. -/
def getReq : HttpRequest :=
  { method := "GET", path := "welcome-message/", query := [], headers := [], body := "" }

/-- A `POST /welcome-message/` request. -/
def postReq : HttpRequest :=
  { method := "POST", path := "welcome-message/", query := [], headers := [], body := "" }

/-- A `GET /unknown-path/` request. -/
def unknownReq : HttpRequest :=
  { method := "GET", path := "unknown-path/", query := [], headers := [], body := "" }

/-- An arbitrary request to the path `welcome-message` without the
trailing slash. -/
def noSlashReq (m : String) (q h : List (String × String)) (b : String) : HttpRequest :=
  { method := m, path := "welcome-message", query := q, headers := h, body := b }

/-- Dispatch for a path other than the registered route: framework 404 and
no handler invocation. -/
theorem dispatch_other_path (req : HttpRequest) (hp : req.path ≠ "welcome-message/") :
    (dispatch req).response.status = 404 ∧ (dispatch req).handlerInvoked = false := by
  have hc : ("welcome-message/" == req.path) = false := by
    cases h : ("welcome-message/" == req.path)
    · rfl
    · exact absurd (eq_of_beq h).symm hp
  simp [dispatch, resolve_urlpatterns, hc]

/-- The view runs exactly when the path matches the registered route and
the method is in the `api_view` list. -/
theorem dispatch_invoked_iff (req : HttpRequest) :
    (dispatch req).handlerInvoked = true ↔
      (req.path = "welcome-message/" ∧ req.method = "GET") := by
  by_cases hp : req.path = "welcome-message/"
  · by_cases hm : req.method = "GET"
    · simp [dispatch, resolve_urlpatterns, hp, hm, allowed_methods, welcome_message]
    · simp [dispatch, resolve_urlpatterns, hp, hm, allowed_methods, welcome_message]
  · have hc : ("welcome-message/" == req.path) = false := by
      cases h : ("welcome-message/" == req.path)
      · rfl
      · exact absurd (eq_of_beq h).symm hp
    simp [dispatch, resolve_urlpatterns, hc, hp]

/-- A path other than the registered route never invokes the view. -/
theorem not_invoked_of_other_path (req : HttpRequest) (hp : req.path ≠ "welcome-message/") :
    (dispatch req).handlerInvoked = false := by
  cases hb : (dispatch req).handlerInvoked
  · rfl
  · exact absurd ((dispatch_invoked_iff req).mp hb).1 hp

/-! ### Claim theorems -/

/-- Claim C1: every GET request to the path `welcome-message/` routed to
`welcome_message` gets status exactly 200 and a body that, as JSON, is
exactly the object with the single key `message` bound to the string
`Hello World!`. -/
theorem get_welcome_status_and_body (req : HttpRequest)
    (hm : req.method = "GET") (hp : req.path = "welcome-message/") :
    (dispatch req).response.status = 200 ∧
      (dispatch req).response.body = Json.obj [("message", Json.str "Hello World!")] := by
  simp [dispatch, resolve_urlpatterns, hp, hm, allowed_methods, welcome_message, welcomeJson]

/-- Witness for C1 at the concrete request `GET /welcome-message/`. -/
theorem get_welcome_status_and_body_witness :
    (dispatch getReq).response.status = 200 ∧
      (dispatch getReq).response.body = Json.obj [("message", Json.str "Hello World!")] :=
  get_welcome_status_and_body getReq rfl rfl

/-- Claim C2: every request to the path `welcome-message/` whose method is
not GET gets status 405. -/
theorem welcome_wrong_method_405 (req : HttpRequest)
    (hp : req.path = "welcome-message/") (hm : req.method ≠ "GET") :
    (dispatch req).response.status = 405 := by
  simp [dispatch, resolve_urlpatterns, hp, allowed_methods, hm]

/-- Witness for C2 at the concrete request `POST /welcome-message/`. -/
theorem welcome_wrong_method_405_witness : (dispatch postReq).response.status = 405 :=
  welcome_wrong_method_405 postReq rfl (by decide)

/-- Claim C3: every request whose path is not `welcome-message/` gets
status 404 and no registered handler is invoked. -/
theorem unknown_path_404 (req : HttpRequest) (hp : req.path ≠ "welcome-message/") :
    (dispatch req).response.status = 404 ∧ (dispatch req).handlerInvoked = false :=
  dispatch_other_path req hp

/-- Witness for C3 at the concrete request `GET /unknown-path/`. -/
theorem unknown_path_404_witness :
    (dispatch unknownReq).response.status = 404 ∧ (dispatch unknownReq).handlerInvoked = false :=
  unknown_path_404 unknownReq (by decide)

/-- Claim C4: the handler's output is independent of the request: any two
requests reaching `welcome_message` yield byte-identical response bodies. -/
theorem welcome_message_body_constant (r1 r2 : HttpRequest) :
    handlerBodyBytes (welcome_message r1) = handlerBodyBytes (welcome_message r2) := rfl

/-- Claim C5: the GET-only constraint is enforced during dispatch, not by
the handler: the view runs exactly when the path is `welcome-message/` and
the method is GET, while the handler itself accepts any method. -/
theorem method_check_in_router (req : HttpRequest) :
    ((dispatch req).handlerInvoked = true ↔
        (req.path = "welcome-message/" ∧ req.method = "GET")) ∧
      (req.method ≠ "GET" → ∃ resp, welcome_message req = .ok resp) :=
  ⟨dispatch_invoked_iff req, fun _ => ⟨_, rfl⟩⟩

/-- Witness for C5 at the concrete request `POST /welcome-message/`. -/
theorem method_check_in_router_witness :
    ((dispatch postReq).handlerInvoked = true ↔
        (postReq.path = "welcome-message/" ∧ postReq.method = "GET")) ∧
      (∃ resp, welcome_message postReq = .ok resp) :=
  ⟨(method_check_in_router postReq).1, (method_check_in_router postReq).2 (by decide)⟩

/-- Claim C6: the trailing slash is significant: no request to the path
`welcome-message` (without the slash) reaches the handler, while
`GET welcome-message/` does. -/
theorem trailing_slash_significant :
    (∀ m q h b, (dispatch (noSlashReq m q h b)).handlerInvoked = false) ∧
      (dispatch getReq).handlerInvoked = true := by
  constructor
  · intro m q h b
    exact not_invoked_of_other_path _ (by simp [noSlashReq])
  · exact (dispatch_invoked_iff getReq).mpr ⟨rfl, rfl⟩

/-- Claim C7: every successful (status 200) response to
`GET /welcome-message/` has content type `application/json`. -/
theorem success_content_type (req : HttpRequest)
    (hm : req.method = "GET") (hp : req.path = "welcome-message/")
    (_hs : (dispatch req).response.status = 200) :
    (dispatch req).response.contentType = "application/json" := by
  simp [dispatch, resolve_urlpatterns, hp, hm, allowed_methods, welcome_message]

/-- Witness for C7 at the concrete request `GET /welcome-message/`. -/
theorem success_content_type_witness :
    (dispatch getReq).response.contentType = "application/json" :=
  success_content_type getReq rfl rfl (by decide)

/-- Claim C8: the handler cannot fail: for every request reaching it, it
returns a response and takes no error branch. -/
theorem welcome_message_total (req : HttpRequest) :
    ∃ resp, welcome_message req = .ok resp := ⟨_, rfl⟩

/-- Claim C9: invoking the handler leaves all program state unchanged and
its result is exactly the pure handler's response. -/
theorem welcome_message_no_side_effects (s : ServerState) (req : HttpRequest) :
    (welcome_message_run s req).1 = s ∧
      (welcome_message_run s req).2 = welcome_message req := ⟨rfl, rfl⟩

end DjangoReact
